import Mathlib

/-!
Shallow embedding of the telegram-weaviate-rag ingestion core
(src/models.py, src/thread_detector.py, src/ingestion.py, src/config.py),
together with theorems settling the frozen claims about it.

Conventions of the embedding:
* Python `datetime` values derived from `int(date_unixtime)` are modelled as
  `Int` epoch seconds; `timedelta(minutes=m)` is `60 * m` seconds.
* Python truthiness of strings ("" is falsy) and of optional ints (None and 0
  are falsy) is modelled explicitly by `pyStrOr` / `optIntTruthy`.
* Python `dict` reply maps are association lists with last-binding-wins lookup.
* `datetime.fromtimestamp` is modelled at UTC (the claims never depend on the
  rendered digits, only on token structure of the formatted strings).
* Fallible code (a `TypeError` from comparing a `str` with a `datetime`, a
  `KeyError` from a missing dict key) returns `Except PyErr`.
-/

namespace TgRag

/-- Python error values that the modelled code can raise. -/
inductive PyErr where
  | typeErr (msg : String)
  | keyErr (key : String)
deriving DecidableEq, Repr

/-- Decidable equality for `Except` results, so that concrete runs of the
fallible modelled functions can be checked by `decide`. -/
instance {ε α : Type} [DecidableEq ε] [DecidableEq α] : DecidableEq (Except ε α) :=
  fun a b =>
    match a, b with
    | .error e, .error f =>
      if h : e = f then .isTrue (by rw [h]) else .isFalse (fun hc => by cases hc; exact h rfl)
    | .error _, .ok _ => .isFalse (fun hc => by cases hc)
    | .ok _, .error _ => .isFalse (fun hc => by cases hc)
    | .ok x, .ok y =>
      if h : x = y then .isTrue (by rw [h]) else .isFalse (fun hc => by cases hc; exact h rfl)

/-- Python `a or b` for an optional string `a`: both `None` and `""` are falsy
(models `self.from_name or "Unknown"` in models.py). -/
def pyStrOr (v : Option String) (d : String) : String :=
  match v with
  | some s => if s = "" then d else s
  | none => d

/-- Python truthiness of an optional int: `None` and `0` are both falsy
(models `if msg.reply_to_message_id:` in thread_detector.py). -/
def optIntTruthy (v : Option Int) : Bool :=
  match v with
  | some n => n != 0
  | none => false

/-- Rendering of an optional string inside a Python f-string: `None` prints
as the text "None". -/
def pyStrRender (v : Option String) : String := v.getD "None"

/-- Whether the first character list is an initial segment of the second. -/
def startsWithChars : List Char → List Char → Bool
  | [], _ => true
  | _ :: _, [] => false
  | a :: as, b :: bs => (a == b) && startsWithChars as bs

/-- Whether the first character list occurs contiguously in the second. -/
def occursChars (needle : List Char) : List Char → Bool
  | [] => startsWithChars needle []
  | c :: cs => startsWithChars needle (c :: cs) || occursChars needle cs

/-- Python `needle in s` substring test, on the underlying character lists. -/
def pyInStr (needle s : String) : Bool := occursChars needle.data s.data

/-- Python `s.lower()` (over the ASCII range the source cares about). -/
def pyLower (s : String) : String := String.mk (s.data.map Char.toLower)

/-- Maximal whitespace-free runs of a character list, accumulator first. -/
def whiteWords (acc : List Char) : List Char → List (List Char)
  | [] => if acc.isEmpty then [] else [acc.reverse]
  | c :: cs =>
    if c.isWhitespace then
      if acc.isEmpty then whiteWords [] cs else acc.reverse :: whiteWords [] cs
    else whiteWords (c :: acc) cs

/-- Python `s.split()` with no argument: split on whitespace runs, dropping
empty fields. -/
def pySplitWhite (s : String) : List String :=
  (whiteWords [] s.data).map (fun w => String.mk w)

/-- The `word_count` computation of models.py line 154:
`len(all_text.split()) if all_text else 0`. -/
def pyWordCount (s : String) : Nat :=
  if s ≠ "" then (pySplitWhite s).length else 0

/-! ### Date formatting (datetime.strftime / isoformat, modelled at UTC) -/

/-- Civil date from a day count relative to 1970-01-01 (proleptic Gregorian,
the computation performed inside `datetime.fromtimestamp`). -/
def civilFromDays (z0 : Int) : Int × Int × Int :=
  let z := z0 + 719468
  let era := Int.ediv z 146097
  let doe := Int.emod z 146097
  let yoe := Int.ediv (doe - Int.ediv doe 1460 + Int.ediv doe 36524 - Int.ediv doe 146096) 365
  let y := yoe + era * 400
  let doy := doe - (365 * yoe + Int.ediv yoe 4 - Int.ediv yoe 100)
  let mp := Int.ediv (5 * doy + 2) 153
  let d := doy - Int.ediv (153 * mp + 2) 5 + 1
  let m := mp + (if mp < 10 then 3 else -9)
  (y + (if m ≤ 2 then 1 else 0), m, d)

/-- Split an epoch-second value into (year, month, day, hour, minute, second). -/
def epochParts (t : Int) : Int × Int × Int × Int × Int × Int :=
  let days := Int.ediv t 86400
  let sod := Int.emod t 86400
  let ymd := civilFromDays days
  (ymd.1, ymd.2.1, ymd.2.2, Int.ediv sod 3600, Int.emod (Int.ediv sod 60) 60, Int.emod sod 60)

/-- Zero-pad a (nonnegative) integer to two digits. -/
def pad2 (n : Int) : String := if n < 10 then "0" ++ toString n else toString n

/-- Zero-pad a (nonnegative) integer to four digits. -/
def pad4 (n : Int) : String :=
  if n < 10 then "000" ++ toString n
  else if n < 100 then "00" ++ toString n
  else if n < 1000 then "0" ++ toString n
  else toString n

/-- strftime "%Y-%m-%d %H:%M:%S" (models.py get_combined_content). -/
def fmtFull (t : Int) : String :=
  let p := epochParts t
  pad4 p.1 ++ "-" ++ pad2 p.2.1 ++ "-" ++ pad2 p.2.2.1 ++ " " ++
    pad2 p.2.2.2.1 ++ ":" ++ pad2 p.2.2.2.2.1 ++ ":" ++ pad2 p.2.2.2.2.2

/-- strftime "%Y%m%d_%H%M%S" (thread id generation in create_thread). -/
def fmtCompact (t : Int) : String :=
  let p := epochParts t
  pad4 p.1 ++ pad2 p.2.1 ++ pad2 p.2.2.1 ++ "_" ++
    pad2 p.2.2.2.1 ++ pad2 p.2.2.2.2.1 ++ pad2 p.2.2.2.2.2

/-- strftime "%Y-%m-%d %H:%M" (contextual content time header). -/
def fmtYmdHM (t : Int) : String :=
  let p := epochParts t
  pad4 p.1 ++ "-" ++ pad2 p.2.1 ++ "-" ++ pad2 p.2.2.1 ++ " " ++
    pad2 p.2.2.2.1 ++ ":" ++ pad2 p.2.2.2.2.1

/-- strftime "%H:%M" (contextual content end-of-range). -/
def fmtHMonly (t : Int) : String :=
  let p := epochParts t
  pad2 p.2.2.2.1 ++ ":" ++ pad2 p.2.2.2.2.1

/-- datetime.isoformat() for whole-second datetimes: "%Y-%m-%dT%H:%M:%S". -/
def fmtIso (t : Int) : String :=
  let p := epochParts t
  pad4 p.1 ++ "-" ++ pad2 p.2.1 ++ "-" ++ pad2 p.2.2.1 ++ "T" ++
    pad2 p.2.2.2.1 ++ ":" ++ pad2 p.2.2.2.2.1 ++ ":" ++ pad2 p.2.2.2.2.2

/-- Round a rational to the nearest integer, ties to even (the rounding used
by CPython float formatting; floats are modelled as exact rationals here). -/
def roundHalfEven (q : Rat) : Int :=
  let f := q.floor
  let frac := q - (f : Rat)
  if frac < (1 : Rat) / 2 then f
  else if (1 : Rat) / 2 < frac then f + 1
  else if Int.emod f 2 = 0 then f else f + 1

/-- Python format spec ".0f" applied to a nonnegative value. -/
def fmtRatFixed0 (q : Rat) : String := toString (roundHalfEven q)

/-- Python format spec ".1f" applied to a nonnegative value. -/
def fmtRatFixed1 (q : Rat) : String :=
  let n := (roundHalfEven (q * 10)).natAbs
  toString (n / 10) ++ "." ++ toString (n % 10)

/-! ### Message model (src/models.py) -/

/-- models.py MessageType: the two kinds of exported messages. -/
inductive MessageType where
  | message
  | service
deriving DecidableEq, Repr

/-- The `.value` string of a MessageType member. -/
def MessageType.val : MessageType → String
  | .message => "message"
  | .service => "service"

/-- models.py TelegramMessage. `date_unixtime` is stored pre-parsed as the
epoch seconds `int(self.date_unixtime)` that `to_timestamp` computes; the
pydantic text validator guarantees `text` is a (possibly empty) string. The
unused `text_entities` metadata field is omitted: no modelled operation reads
it. -/
structure TelegramMessage where
  id : Int
  type : MessageType
  date : String
  date_unixtime : Int
  from_name : Option String := none
  from_id : Option String := none
  text : String := ""
  actor : Option String := none
  actor_id : Option String := none
  action : Option String := none
  reply_to_message_id : Option Int := none
deriving DecidableEq, Repr

/-- models.py TelegramMessage.get_sender_name. -/
def get_sender_name (m : TelegramMessage) : String :=
  match m.type with
  | .message => pyStrOr m.from_name "Unknown"
  | .service => pyStrOr m.actor "System"

/-- models.py TelegramMessage.get_sender_id. -/
def get_sender_id (m : TelegramMessage) : String :=
  match m.type with
  | .message => pyStrOr m.from_id "unknown"
  | .service => pyStrOr m.actor_id "system"

/-- models.py TelegramMessage.to_timestamp: `datetime.fromtimestamp(int(self.date_unixtime))`,
modelled as the epoch seconds themselves. -/
def to_timestamp (m : TelegramMessage) : Int := m.date_unixtime

/-- models.py TelegramMessage.get_readable_content. For service messages the
action is looked up in the description table, falling back to the f-string
`"{actor} performed {action}"` (where a missing value renders as "None"). -/
def get_readable_content (m : TelegramMessage) : String :=
  match m.type with
  | .message => m.text
  | .service =>
    let a := pyStrRender m.actor
    match m.action with
    | some "create_channel" => a ++ " created the channel"
    | some "join_channel" => a ++ " joined the channel"
    | some "leave_channel" => a ++ " left the channel"
    | some "edit_group_photo" => a ++ " changed the group photo"
    | some "pin_message" => a ++ " pinned a message"
    | some "invite_members" => a ++ " invited new members"
    | _ => a ++ " performed " ++ pyStrRender m.action

/-- models.py MessageThread. `start_time` and `end_time` are epoch seconds. -/
structure MessageThread where
  thread_id : String
  messages : List TelegramMessage
  start_time : Int
  end_time : Int
  participants : List String
  message_count : Nat
deriving DecidableEq, Repr

/-- One line of models.py MessageThread.get_combined_content:
`[timestamp] sender: content`. -/
def combinedLine (m : TelegramMessage) : String :=
  "[" ++ fmtFull (to_timestamp m) ++ "] " ++ get_sender_name m ++ ": " ++
    get_readable_content m

/-- models.py MessageThread.get_combined_content. -/
def get_combined_content (t : MessageThread) : String :=
  String.intercalate "\n" (t.messages.map combinedLine)

/-! ### Thread detector (src/thread_detector.py) -/

/-- config.py Settings, restricted to the three thread-detection fields (the
only ones the detector consults). Field defaults are the config defaults. -/
structure ThreadSettings where
  thread_time_window_minutes : Nat := 5
  thread_min_messages : Nat := 1
  thread_max_messages : Nat := 50
deriving DecidableEq, Repr

/-- The default Settings() instance for the threading fields. -/
def defaultSettings : ThreadSettings := {}

/-- Python `v or d` for an optional nonnegative int argument: `None` and `0`
both fall back to the default (`max_thread_messages or settings.thread_max_messages`). -/
def pyOrNat (v : Option Nat) (d : Nat) : Nat :=
  match v with
  | some 0 => d
  | some n => n
  | none => d

/-- thread_detector.py ThreadDetector state: `time_window` holds the
`timedelta` as seconds; the statistics dict is omitted (diagnostics only). -/
structure ThreadDetector where
  time_window : Int
  max_messages : Nat
  min_messages : Nat
deriving DecidableEq, Repr

/-- thread_detector.py ThreadDetector.__init__: each argument defaults to the
corresponding Settings field when falsy; minutes become seconds. -/
def mkThreadDetector (time_window_minutes max_thread_messages min_thread_messages : Option Nat)
    (s : ThreadSettings) : ThreadDetector :=
  { time_window := 60 * (pyOrNat time_window_minutes s.thread_time_window_minutes : Int)
    max_messages := pyOrNat max_thread_messages s.thread_max_messages
    min_messages := pyOrNat min_thread_messages s.thread_min_messages }

/-- The reply map of thread_detector.py detect_threads lines 188-191:
`reply_map[msg.id] = msg.reply_to_message_id` for every message whose
`reply_to_message_id` is truthy. Note the direction: the key is the id of the
REPLYING message, the value is the id of the message it replies to. -/
def buildReplyMap (messages : List TelegramMessage) : List (Int × Int) :=
  messages.filterMap fun m =>
    match m.reply_to_message_id with
    | some r => if r != 0 then some (m.id, r) else none
    | none => none

/-- Dict lookup in the reply map (last binding wins, as in a Python dict). -/
def rmLookup (rm : List (Int × Int)) (k : Int) : Option Int :=
  (rm.reverse.find? (fun p => p.1 == k)).map (fun p => p.2)

/-- A default message, used only as the junk value of `List.headD` /
`List.getLastD` where the source indexes a list it knows to be non-empty. -/
def defaultMessage : TelegramMessage :=
  { id := 0, type := .message, date := "", date_unixtime := 0 }

/-- thread_detector.py ThreadDetector.should_continue_thread, line for line:
size guard, empty-thread acceptance, time-window check, reply-into-thread
check, reply-map check, service leniency, participant continuity, and the
fixed 2-minute (120 s) quick-reply window. -/
def should_continue_thread (d : ThreadDetector) (current_thread : List TelegramMessage)
    (new_message : TelegramMessage) (reply_map : List (Int × Int)) : Bool :=
  if d.max_messages ≤ current_thread.length then false
  else
    match current_thread.getLast? with
    | none => true
    | some last_message =>
      let time_diff := to_timestamp new_message - to_timestamp last_message
      if d.time_window < time_diff then false
      else if (match new_message.reply_to_message_id with
          | some r => (r != 0) && current_thread.any (fun msg => msg.id == r)
          | none => false) then true
      else if (match rmLookup reply_map new_message.id with
          | some target => current_thread.any (fun msg => msg.id == target)
          | none => false) then true
      else if new_message.type == .service then decide (time_diff ≤ d.time_window)
      else if current_thread.any (fun msg => get_sender_name msg == get_sender_name new_message) then true
      else if time_diff ≤ 120 then true
      else false

/-- thread_detector.py ThreadDetector.create_thread. The source indexes
`messages[0]` and `messages[-1]` of a list it only ever receives non-empty;
`headD` / `getLastD` coincide with those on non-empty lists. Python
`list(set(...))` enumerates the distinct sender names in unspecified order;
`List.dedup` is the deterministic stand-in. -/
def create_thread (messages : List TelegramMessage) : MessageThread :=
  let first := messages.headD defaultMessage
  let last := messages.getLastD defaultMessage
  { thread_id := "thread_" ++ fmtCompact (to_timestamp first) ++ "_" ++ toString first.id
    messages := messages
    start_time := to_timestamp first
    end_time := to_timestamp last
    participants := (messages.map get_sender_name).dedup
    message_count := messages.length }

/-- The message loop of thread_detector.py detect_threads lines 193-213:
accumulate into the current thread while `should_continue_thread` accepts,
otherwise seal the (non-empty) accumulation and restart from the rejected
message; seal the final accumulation at end of input. -/
def detectLoop (d : ThreadDetector) (reply_map : List (Int × Int)) :
    List TelegramMessage → List TelegramMessage → List MessageThread → List MessageThread
  | [], current, threads =>
    if current.isEmpty then threads else threads ++ [create_thread current]
  | m :: rest, current, threads =>
    if should_continue_thread d current m reply_map then
      detectLoop d reply_map rest (current ++ [m]) threads
    else
      detectLoop d reply_map rest [m]
        (if current.isEmpty then threads else threads ++ [create_thread current])

/-- thread_detector.py ThreadDetector.detect_threads: build the reply map over
the whole sequence, then run the accumulation loop. -/
def detect_threads (d : ThreadDetector) (messages : List TelegramMessage) : List MessageThread :=
  detectLoop d (buildReplyMap messages) messages [] []

/-! ### Thread summary and document builder (src/models.py, continued) -/

/-- The dict returned by models.py MessageThread.get_thread_summary. Floats
are modelled as exact rationals; `duration_seconds` is integral because the
timestamps are whole seconds. The summary has NO `message_count` key — the
source never puts one in, which matters for `get_contextual_content`. -/
structure ThreadSummary where
  duration_seconds : Int
  participant_count : Nat
  has_questions : Bool
  has_links : Bool
  message_types : List String
  word_count : Nat
  char_count : Nat
  avg_message_length : Rat
  has_replies : Bool
  reply_count : Nat
  unique_senders : Nat
  has_media : Bool
  has_mentions : Bool
  has_hashtags : Bool
  has_exclamations : Bool
  conversation_density : Rat
  interaction_pattern : String
  sentiment_score : Rat
  dominant_emotion : String
  conversation_type : String
  urgency_level : String
  topic_keywords : List String
  extracted_entities : List String
  resolution_status : String
deriving DecidableEq, Repr

/-- The texts of the thread's regular messages with truthy text
(`[msg.text for msg in self.messages if msg.text and msg.type.value == "message"]`). -/
def threadTexts (t : MessageThread) : List String :=
  (t.messages.filter (fun m => m.text != "" && m.type == MessageType.message)).map
    (fun m => m.text)

/-- The `all_text` string of get_thread_summary: the space-join of `threadTexts`. -/
def threadAllText (t : MessageThread) : String :=
  String.intercalate " " (threadTexts t)

/-- The messages with truthy text (`for msg in self.messages if msg.text`),
scanned by the content-flag generators of get_thread_summary. -/
def textyMessages (t : MessageThread) : List TelegramMessage :=
  t.messages.filter (fun m => m.text != "")

/-- models.py MessageThread.get_thread_summary, field for field. -/
def get_thread_summary (t : MessageThread) : ThreadSummary :=
  let text_messages := threadTexts t
  let all_text := threadAllText t
  let texty := textyMessages t
  { duration_seconds := t.end_time - t.start_time
    participant_count := t.participants.length
    has_questions := texty.any (fun m => pyInStr "?" m.text)
    has_links := texty.any (fun m => pyInStr "http" m.text)
    message_types := (t.messages.map (fun m => m.type.val)).dedup
    word_count := pyWordCount all_text
    char_count := all_text.length
    avg_message_length :=
      if text_messages.length ≠ 0 then (all_text.length : Rat) / (text_messages.length : Rat)
      else 0
    has_replies := t.messages.any (fun m => optIntTruthy m.reply_to_message_id)
    reply_count := (t.messages.filter (fun m => optIntTruthy m.reply_to_message_id)).length
    unique_senders := ((t.messages.map get_sender_name).dedup).length
    has_media := texty.any (fun m =>
      pyInStr "photo" (pyLower m.text) || pyInStr "video" (pyLower m.text) ||
        pyInStr "file" (pyLower m.text))
    has_mentions := texty.any (fun m => pyInStr "@" m.text)
    has_hashtags := texty.any (fun m => pyInStr "#" m.text)
    has_exclamations := texty.any (fun m => pyInStr "!" m.text)
    conversation_density :=
      (t.messages.length : Rat) / max (((t.end_time - t.start_time : Int) : Rat) / 60) 1
    interaction_pattern :=
      if t.participants.length = 1 then "single"
      else if t.participants.length = 2 then "dialogue"
      else "group"
    sentiment_score := 0
    dominant_emotion := "neutral"
    conversation_type := "general"
    urgency_level := "normal"
    topic_keywords := []
    extracted_entities := []
    resolution_status := "unknown" }

/-- The conversation-type hint block of models.py get_contextual_content
lines 230-235. The `elif` chain reads `summary['message_count']` — a key
`get_thread_summary` never defines — whenever `interaction_pattern` is
"group" and no earlier branch fired, so that path raises KeyError. -/
def contextHint (s : ThreadSummary) : Except PyErr (List String) :=
  if 2 < s.conversation_density then Except.ok ["High-activity discussion"]
  else if s.has_questions && decide (0 < s.reply_count) then
    Except.ok ["Q&A or problem-solving conversation"]
  else if s.interaction_pattern == "group" then Except.error (PyErr.keyErr "message_count")
  else Except.ok []

/-- models.py MessageThread.get_contextual_content (the flags default to true
and `from_thread` passes no arguments). Numeric f-string fields use the
rational renderings `fmtRatFixed0` / `fmtRatFixed1`. -/
def get_contextual_content (t : MessageThread) (include_summary include_metadata : Bool) :
    Except PyErr String :=
  let s := get_thread_summary t
  let characteristics :=
    (if s.has_questions then ["contains questions"] else []) ++
    (if s.has_replies then ["has threaded replies"] else []) ++
    (if s.has_links then ["includes links"] else []) ++
    (if s.has_mentions then ["has user mentions"] else []) ++
    (if s.has_hashtags then ["contains hashtags"] else []) ++
    (if s.has_media then ["references media"] else [])
  let summaryParts :=
    if include_summary then
      ["=== CONVERSATION CONTEXT ===",
       "Participants: " ++ String.intercalate ", " t.participants,
       "Duration: " ++ toString s.duration_seconds ++ " seconds (" ++
         fmtRatFixed1 ((s.duration_seconds : Rat) / 60) ++ " minutes)",
       "Message Count: " ++ toString t.message_count,
       "Interaction Type: " ++ s.interaction_pattern] ++
      (if characteristics.isEmpty then []
       else ["Content Features: " ++ String.intercalate ", " characteristics])
    else []
  let metaHead :=
    if include_metadata then
      ["Conversation Density: " ++ fmtRatFixed1 s.conversation_density ++ " messages/minute",
       "Average Message Length: " ++ fmtRatFixed0 s.avg_message_length ++ " characters",
       "Unique Senders: " ++ toString s.unique_senders]
    else []
  let metaHint := if include_metadata then contextHint s else Except.ok []
  match metaHint with
  | Except.error e => Except.error e
  | Except.ok hint =>
    let time_context :=
      "Time: " ++ fmtYmdHM t.start_time ++
        (if 3600 < s.duration_seconds then " to " ++ fmtHMonly t.end_time else "")
    let context_parts := summaryParts ++ metaHead ++ hint ++
      [time_context, "=== CONVERSATION CONTENT ==="]
    Except.ok (String.intercalate "\n" context_parts ++ "\n\n" ++ get_combined_content t)

/-- models.py WeaviateDocument. `timestamp` is the thread start time in epoch
seconds; `raw_messages` keeps the structured messages that the source dumps
with `model_dump()`. -/
structure WeaviateDocument where
  content : String
  thread_id : String
  message_count : Nat
  participants : List String
  timestamp : Int
  duration_seconds : Int
  message_types : List String
  has_service_messages : Bool
  has_questions : Bool
  has_links : Bool
  word_count : Nat
  char_count : Nat
  avg_message_length : Rat
  has_replies : Bool
  reply_count : Nat
  unique_senders : Nat
  has_media : Bool
  has_mentions : Bool
  has_hashtags : Bool
  has_exclamations : Bool
  conversation_density : Rat
  interaction_pattern : String
  sentiment_score : Rat
  dominant_emotion : String
  conversation_type : String
  urgency_level : String
  topic_keywords : List String
  extracted_entities : List String
  resolution_status : String
  raw_messages : List TelegramMessage
deriving DecidableEq, Repr

/-- models.py WeaviateDocument.from_thread: choose the content string by the
`use_contextual_content` flag (the contextual path can raise KeyError, see
`contextHint`), then fill every field from the thread and its summary. -/
def from_thread (t : MessageThread) (use_contextual_content : Bool) :
    Except PyErr WeaviateDocument :=
  let contentE :=
    if use_contextual_content then get_contextual_content t true true
    else Except.ok (get_combined_content t)
  match contentE with
  | Except.error e => Except.error e
  | Except.ok content =>
    let s := get_thread_summary t
    Except.ok
      { content := content
        thread_id := t.thread_id
        message_count := t.message_count
        participants := t.participants
        timestamp := t.start_time
        duration_seconds := s.duration_seconds
        message_types := s.message_types
        has_service_messages := s.message_types.contains "service"
        has_questions := s.has_questions
        has_links := s.has_links
        word_count := s.word_count
        char_count := s.char_count
        avg_message_length := s.avg_message_length
        has_replies := s.has_replies
        reply_count := s.reply_count
        unique_senders := s.unique_senders
        has_media := s.has_media
        has_mentions := s.has_mentions
        has_hashtags := s.has_hashtags
        has_exclamations := s.has_exclamations
        conversation_density := s.conversation_density
        interaction_pattern := s.interaction_pattern
        sentiment_score := s.sentiment_score
        dominant_emotion := s.dominant_emotion
        conversation_type := s.conversation_type
        urgency_level := s.urgency_level
        topic_keywords := s.topic_keywords
        extracted_entities := s.extracted_entities
        resolution_status := s.resolution_status
        raw_messages := t.messages }

/-- The dict built by models.py WeaviateDocument.to_weaviate_object:
identical fields with `timestamp` rendered as RFC3339 (isoformat never ends
in "Z", so "Z" is always appended) and `raw_messages` stringified (kept
structured here; nothing reads the rendering). -/
structure WeaviateObject where
  content : String
  thread_id : String
  message_count : Nat
  participants : List String
  timestamp : String
  duration_seconds : Int
  message_types : List String
  has_service_messages : Bool
  has_questions : Bool
  has_links : Bool
  word_count : Nat
  char_count : Nat
  avg_message_length : Rat
  has_replies : Bool
  reply_count : Nat
  unique_senders : Nat
  has_media : Bool
  has_mentions : Bool
  has_hashtags : Bool
  has_exclamations : Bool
  conversation_density : Rat
  interaction_pattern : String
  sentiment_score : Rat
  dominant_emotion : String
  conversation_type : String
  urgency_level : String
  topic_keywords : List String
  extracted_entities : List String
  resolution_status : String
  raw_messages : List TelegramMessage
deriving DecidableEq, Repr

/-- models.py WeaviateDocument.to_weaviate_object. It performs only field
copies and total formatting, so (unlike in the source's defensive try/except)
it cannot fail. -/
def to_weaviate_object (d : WeaviateDocument) : WeaviateObject :=
  { content := d.content
    thread_id := d.thread_id
    message_count := d.message_count
    participants := d.participants
    timestamp := fmtIso d.timestamp ++ "Z"
    duration_seconds := d.duration_seconds
    message_types := d.message_types
    has_service_messages := d.has_service_messages
    has_questions := d.has_questions
    has_links := d.has_links
    word_count := d.word_count
    char_count := d.char_count
    avg_message_length := d.avg_message_length
    has_replies := d.has_replies
    reply_count := d.reply_count
    unique_senders := d.unique_senders
    has_media := d.has_media
    has_mentions := d.has_mentions
    has_hashtags := d.has_hashtags
    has_exclamations := d.has_exclamations
    conversation_density := d.conversation_density
    interaction_pattern := d.interaction_pattern
    sentiment_score := d.sentiment_score
    dominant_emotion := d.dominant_emotion
    conversation_type := d.conversation_type
    urgency_level := d.urgency_level
    topic_keywords := d.topic_keywords
    extracted_entities := d.extracted_entities
    resolution_status := d.resolution_status
    raw_messages := d.raw_messages }

/-! ### Ingestion (src/ingestion.py) -/

/-- A Python `datetime` value, as returned by
DataIngestion.get_latest_timestamp; wrapped so that it is a type distinct
from the `str` stored in `TelegramMessage.date`. -/
structure PyDatetime where
  epoch : Int
deriving DecidableEq, Repr

/-- The inner loop of ingestion.py filter_new_threads lines 192-196. The
source tests `if msg.date and msg.date > since:` where `msg.date` is a `str`
and `since` a `datetime`: a truthy (non-empty) date reaches the `>` and
raises TypeError; a falsy date short-circuits, so the scan can only finish
with `has_new_messages = False`. -/
def threadHasNewMessages (since : PyDatetime) :
    List TelegramMessage → Except PyErr Bool
  | [] => Except.ok false
  | m :: rest =>
    if m.date ≠ "" then
      Except.error (PyErr.typeErr "unsupported operand: str > datetime")
    else threadHasNewMessages since rest

/-- ingestion.py DataIngestion.filter_new_threads: keep the threads whose
scan reports new messages, propagating the TypeError of the scan. -/
def filter_new_threads (threads : List MessageThread) (since : PyDatetime) :
    Except PyErr (List MessageThread) :=
  match threads with
  | [] => Except.ok []
  | t :: rest =>
    match threadHasNewMessages since t.messages with
    | Except.error e => Except.error e
    | Except.ok b =>
      match filter_new_threads rest since with
      | Except.error e => Except.error e
      | Except.ok l => Except.ok (if b then t :: l else l)

/-- The intended incremental filter as the spec words it (P6): keep exactly
the threads containing a message with timestamp strictly greater than the
cutoff. Stated for comparison with `filter_new_threads`. -/
def filterSinceSpec (threads : List MessageThread) (cutoff : Int) : List MessageThread :=
  threads.filter (fun t => t.messages.any (fun m => cutoff < to_timestamp m))

/-- The environment of one ingestion run: the thread ids already stored
(check_existing_threads) and which batches the store's batch insertion
rejects (the exception of `collection.batch.dynamic()`); modelled as a
deterministic function of the submitted documents. -/
structure IngestEnv where
  existing_ids : List String
  batchInsertFails : List WeaviateDocument → Bool

/-- The counters of ingestion.py `self.stats` that ingest_documents touches. -/
structure IngestStats where
  total_threads : Nat
  processed : Nat
  successful : Nat
  failed : Nat
  skipped : Nat
deriving DecidableEq, Repr

/-- The observable outcome of DataIngestion.ingest_documents: the final
statistics, the final `self.failed_threads` list, whether the retry branch of
lines 319-323 ran, and the exact document list it passed to `ingest_batch`. -/
structure IngestOutcome where
  stats : IngestStats
  failed_threads : List WeaviateDocument
  retry_attempted : Bool
  retried_docs : List WeaviateDocument
deriving Repr

/-- ingestion.py DataIngestion.ingest_batch. The preparation loop is total in
the model because `to_weaviate_object` cannot raise, so `batch_data` lines up
with `documents`; a batch-level insertion failure counts the whole batch as
failed and extends `self.failed_threads` with the batch. Returns
((success, failed), new failed_threads). -/
def ingest_batch (env : IngestEnv) (failed_threads : List WeaviateDocument)
    (documents : List WeaviateDocument) : (Nat × Nat) × List WeaviateDocument :=
  let batch_data := documents.map to_weaviate_object
  if batch_data.isEmpty then ((0, 0), failed_threads)
  else if env.batchInsertFails documents then
    ((0, batch_data.length), failed_threads ++ documents)
  else ((batch_data.length, 0), failed_threads)

/-- The batch slicing `documents[i:i + batch_size]` of ingest_documents line
295, by fuel on the list length (Python raises ValueError on a zero step, so
the function is only meaningful for `1 ≤ bs`). -/
def chunksGo (bs : Nat) : Nat → List WeaviateDocument → List (List WeaviateDocument)
  | 0, _ => []
  | _, [] => []
  | fuel + 1, l => l.take bs :: chunksGo bs fuel (l.drop bs)

/-- All batches of size `bs` covering `l` in order. -/
def chunks (bs : Nat) (l : List WeaviateDocument) : List (List WeaviateDocument) :=
  chunksGo bs l.length l

/-- One batch step of the main pass of ingest_documents lines 294-311:
accumulate (successful, failed, processed) and `self.failed_threads`. -/
def ingestStep (env : IngestEnv) (acc : (Nat × Nat × Nat) × List WeaviateDocument)
    (batch : List WeaviateDocument) : (Nat × Nat × Nat) × List WeaviateDocument :=
  let res := ingest_batch env acc.2 batch
  ((acc.1.1 + res.1.1, acc.1.2.1 + res.1.2, acc.1.2.2 + batch.length), res.2)

/-- The full batched main pass of ingest_documents over the deduplicated
document list, starting from a fresh `self.failed_threads = []`. -/
def ingest_main_pass (env : IngestEnv) (bs : Nat) (documents : List WeaviateDocument) :
    (Nat × Nat × Nat) × List WeaviateDocument :=
  (chunks bs documents).foldl (ingestStep env) ((0, 0, 0), [])

/-- The duplicate filter of ingest_documents lines 260-269: when skipping is
requested and the store reported existing ids, drop the documents whose
thread id is already present. -/
def dedupeDocs (env : IngestEnv) (skip_existing : Bool)
    (documents : List WeaviateDocument) : List WeaviateDocument :=
  let existing := if skip_existing then env.existing_ids else []
  if existing.isEmpty then documents
  else documents.filter (fun d => !(existing.contains d.thread_id))

/-- ingestion.py DataIngestion.ingest_documents lines 248-323: dedupe, early
return when nothing is left, main batched pass, then the bounded retry —
taken exactly when `self.failed_threads` is non-empty AND shorter than 50 —
whose failure count replaces `stats["failed"]`. -/
def ingest_documents (env : IngestEnv) (bs : Nat) (documents0 : List WeaviateDocument)
    (skip_existing : Bool) : IngestOutcome :=
  let total := documents0.length
  let documents := dedupeDocs env skip_existing documents0
  let skipped := if documents.length = total then 0 else total - documents.length
  if documents.isEmpty then
    { stats := { total_threads := total, processed := 0, successful := 0,
                 failed := 0, skipped := skipped }
      failed_threads := []
      retry_attempted := false
      retried_docs := [] }
  else
    let main := ingest_main_pass env bs documents
    let collected := main.2
    if ¬collected.isEmpty ∧ collected.length < 50 then
      let retry := ingest_batch env collected collected
      { stats := { total_threads := total, processed := main.1.2.2,
                   successful := main.1.1 + retry.1.1, failed := retry.1.2,
                   skipped := skipped }
        failed_threads := retry.2
        retry_attempted := true
        retried_docs := collected }
    else
      { stats := { total_threads := total, processed := main.1.2.2,
                   successful := main.1.1, failed := main.1.2.1, skipped := skipped }
        failed_threads := collected
        retry_attempted := false
        retried_docs := [] }

/-- The `self.failed_threads` list collected by the full batched main pass of
one ingest_documents run (after deduplication), i.e. the list the retry
decision of line 319 inspects. -/
def collectedFailed (env : IngestEnv) (bs : Nat) (documents0 : List WeaviateDocument)
    (skip_existing : Bool) : List WeaviateDocument :=
  (ingest_main_pass env bs (dedupeDocs env skip_existing documents0)).2

/-! ### Statement-level predicates -/

/-- Concatenation of the message lists of a sequence of threads. -/
def threadsMessages (ts : List MessageThread) : List TelegramMessage :=
  ts.foldr (fun t acc => t.messages ++ acc) []

/-- The Thread invariant of the spec (section 3): non-empty chronologically
non-decreasing messages, endpoint times, exact count, and participants being
precisely the distinct sender names. -/
def ThreadInv (t : MessageThread) : Prop :=
  t.messages ≠ [] ∧
  List.Chain' (fun a b => to_timestamp a ≤ to_timestamp b) t.messages ∧
  t.start_time = to_timestamp (t.messages.headD defaultMessage) ∧
  t.end_time = to_timestamp (t.messages.getLastD defaultMessage) ∧
  t.message_count = t.messages.length ∧
  t.participants.Nodup ∧
  ∀ s, s ∈ t.participants ↔ s ∈ t.messages.map get_sender_name

/-! ### Concrete inputs used by witnesses and counterexamples -/

/-- ThreadDetector() with every argument defaulted: 5-minute window, max 50. -/
def dDefault : ThreadDetector := mkThreadDetector none none none defaultSettings

/-- A detector whose `thread_max_messages` setting is 0 — reachable because
config.py validates only the time window, and `0 or 0` stays 0 in __init__. -/
def detectorMaxZero : ThreadDetector :=
  mkThreadDetector none none none { thread_max_messages := 0 }

/-- The detector of spec Scenario E: `max_thread_messages = 50` passed
explicitly, everything else defaulted. -/
def detectorScenarioE : ThreadDetector := mkThreadDetector none (some 50) none defaultSettings

/-- One regular message from Alice at epoch second 0. -/
def aliceMsg : TelegramMessage :=
  { id := 1, type := .message, date := "2024-01-01T10:00:00", date_unixtime := 0,
    from_name := some "Alice" }

/-- A message of Scenario E: sender "a", one per minute, increasing ids. -/
def scenarioEMsg (i : Nat) : TelegramMessage :=
  { id := (i : Int), type := .message, date := "d", date_unixtime := 60 * (i : Int),
    from_name := some "a" }

/-- Scenario E input: 60 messages from one sender, each 1 minute apart. -/
def scenarioE : List TelegramMessage := (List.range 60).map scenarioEMsg

/-- A message that replies to id 2 (the C1 thread content). -/
def c1ReplyMsg : TelegramMessage :=
  { id := 1, type := .message, date := "d", date_unixtime := 0,
    from_name := some "a", reply_to_message_id := some 2 }

/-- The C1 candidate: id 2, a different sender, 3 minutes later, no reply
field of its own. -/
def c1Candidate : TelegramMessage :=
  { id := 2, type := .message, date := "d", date_unixtime := 180, from_name := some "b" }

/-- The whole C1 message sequence over which the reply map is built. -/
def c1Messages : List TelegramMessage := [c1ReplyMsg, c1Candidate]

/-- Same sender as `aliceMsg`, exactly at the 5-minute window boundary. -/
def aliceAt300 : TelegramMessage :=
  { id := 3, type := .message, date := "d", date_unixtime := 300, from_name := some "Alice" }

/-- A different sender 301 seconds after `aliceMsg` (beyond the window). -/
def bobAt301 : TelegramMessage :=
  { id := 4, type := .message, date := "d", date_unixtime := 301, from_name := some "Bob" }

/-- A different sender 100 seconds after `aliceMsg` (a quick reply). -/
def bobAt100 : TelegramMessage :=
  { id := 5, type := .message, date := "d", date_unixtime := 100, from_name := some "Bob" }

/-- A different sender 60 seconds after `aliceMsg`, used as sorted input. -/
def bobAt60 : TelegramMessage :=
  { id := 6, type := .message, date := "d", date_unixtime := 60, from_name := some "Bob" }

/-- A chronologically sorted two-message input. -/
def witnessSorted : List TelegramMessage := [aliceMsg, bobAt60]

/-- A junk thread for `List.headD` over thread lists proven non-empty. -/
def junkThread : MessageThread := create_thread [defaultMessage]

/-- A thread with zero messages (constructible: the pydantic model places no
lower bound on the message list). -/
def emptyThread : MessageThread :=
  { thread_id := "t0", messages := [], start_time := 0, end_time := 0,
    participants := [], message_count := 0 }

/-- A one-message thread whose message text is "hi". -/
def hiMsg : TelegramMessage :=
  { id := 1, type := .message, date := "d", date_unixtime := 0,
    from_name := some "a", text := "hi" }

/-- The C8 thread: a single two-character message from "a" at epoch 0. -/
def hiThread : MessageThread :=
  { thread_id := "t8", messages := [hiMsg], start_time := 0, end_time := 0,
    participants := ["a"], message_count := 1 }

/-- A junk document (the fallback of `Except.toOption.getD`; never the value
actually reached in any theorem). -/
def junkDocument : WeaviateDocument :=
  { content := "", thread_id := "", message_count := 0, participants := [],
    timestamp := 0, duration_seconds := 0, message_types := [],
    has_service_messages := false, has_questions := false, has_links := false,
    word_count := 0, char_count := 0, avg_message_length := 0,
    has_replies := false, reply_count := 0, unique_senders := 0,
    has_media := false, has_mentions := false, has_hashtags := false,
    has_exclamations := false, conversation_density := 0,
    interaction_pattern := "", sentiment_score := 0, dominant_emotion := "",
    conversation_type := "", urgency_level := "", topic_keywords := [],
    extracted_entities := [], resolution_status := "", raw_messages := [] }

/-- The document `from_thread` builds for `hiThread` on the default path. -/
def hiDocument : WeaviateDocument :=
  ((from_thread hiThread false).toOption).getD junkDocument

/-- The document `from_thread` builds for `emptyThread` on the default path. -/
def emptyThreadDocument : WeaviateDocument :=
  ((from_thread emptyThread false).toOption).getD junkDocument

/-- A message carrying a (truthy) date string and a recent timestamp. -/
def c2Msg : TelegramMessage :=
  { id := 9, type := .message, date := "2024-01-01T10:00:00",
    date_unixtime := 1704103200, from_name := some "a", text := "new" }

/-- A thread holding one message with a (truthy) date string and a timestamp
newer than any cutoff of interest. -/
def c2Thread : MessageThread :=
  { thread_id := "t2", messages := [c2Msg],
    start_time := 1704103200, end_time := 1704103200,
    participants := ["a"], message_count := 1 }

/-- A cutoff datetime earlier than the `c2Thread` message. -/
def c2Since : PyDatetime := { epoch := 0 }

/-- An ingestion environment where nothing is stored yet and the store never
rejects a batch. -/
def envAllOk : IngestEnv := { existing_ids := [], batchInsertFails := fun _ => false }

/-! ## Lemmas about the detector loop -/

theorem create_thread_messages (msgs : List TelegramMessage) :
    (create_thread msgs).messages = msgs := rfl

theorem create_thread_count (msgs : List TelegramMessage) :
    (create_thread msgs).message_count = msgs.length := rfl

theorem threadsMessages_cons (t : MessageThread) (ts : List MessageThread) :
    threadsMessages (t :: ts) = t.messages ++ threadsMessages ts := rfl

theorem threadsMessages_append (a b : List MessageThread) :
    threadsMessages (a ++ b) = threadsMessages a ++ threadsMessages b := by
  induction a with
  | nil => simp [threadsMessages]
  | cons t ts ih => simp [threadsMessages_cons, ih]

theorem threadsMessages_snoc (ts : List MessageThread) (msgs : List TelegramMessage) :
    threadsMessages (ts ++ [create_thread msgs]) = threadsMessages ts ++ msgs := by
  induction ts with
  | nil => simp [threadsMessages, create_thread_messages, threadsMessages_cons]
  | cons t ts ih => simp [threadsMessages_cons, ih]

theorem detectLoop_coverage (d : ThreadDetector) (rm : List (Int × Int)) :
    ∀ (msgs cur : List TelegramMessage) (threads : List MessageThread),
    threadsMessages (detectLoop d rm msgs cur threads) =
      threadsMessages threads ++ cur ++ msgs := by
  intro msgs
  induction msgs with
  | nil =>
    intro cur threads
    cases hc : cur.isEmpty with
    | true =>
      have hcv : cur = [] := List.isEmpty_iff.mp hc
      simp [detectLoop, hc, hcv]
    | false =>
      simp [detectLoop, hc, threadsMessages_snoc]
  | cons m rest ih =>
    intro cur threads
    cases hsc : should_continue_thread d cur m rm with
    | true => simp [detectLoop, hsc, ih]
    | false =>
      cases hc : cur.isEmpty with
      | true =>
        have hcv : cur = [] := List.isEmpty_iff.mp hc
        simp [detectLoop, hsc, hc, ih, hcv]
      | false =>
        simp [detectLoop, hsc, hc, ih, threadsMessages_snoc]

/-- C3: for every detector configuration and every input message sequence,
concatenating the message lists of the threads returned by detect_threads
gives back the input sequence exactly — so no message is dropped, duplicated,
or placed in more than one thread, and the multiset union of the output
threads equals the input. -/
theorem detect_threads_coverage (d : ThreadDetector) (messages : List TelegramMessage) :
    threadsMessages (detect_threads d messages) = messages := by
  simpa using detectLoop_coverage d (buildReplyMap messages) messages [] []

theorem should_continue_min_irrel (tw : Int) (mx a b : Nat)
    (cur : List TelegramMessage) (m : TelegramMessage) (rm : List (Int × Int)) :
    should_continue_thread ⟨tw, mx, a⟩ cur m rm =
      should_continue_thread ⟨tw, mx, b⟩ cur m rm := rfl

theorem detectLoop_min_irrel (tw : Int) (mx a b : Nat) (rm : List (Int × Int)) :
    ∀ (msgs cur : List TelegramMessage) (threads : List MessageThread),
    detectLoop ⟨tw, mx, a⟩ rm msgs cur threads =
      detectLoop ⟨tw, mx, b⟩ rm msgs cur threads := by
  intro msgs
  induction msgs with
  | nil => intro cur threads; rfl
  | cons m rest ih =>
    intro cur threads
    simp only [detectLoop]
    rw [should_continue_min_irrel tw mx a b cur m rm]
    cases hsc : should_continue_thread ⟨tw, mx, b⟩ cur m rm with
    | true => simp [hsc, ih]
    | false => simp [hsc, ih]

/-- C10: the min-thread-messages setting is stored on the detector but never
consulted: with all other settings equal, both should_continue_thread and
detect_threads give identical results for any two values of it. -/
theorem thread_min_messages_no_effect (tw : Int) (mx a b : Nat)
    (cur messages : List TelegramMessage) (m : TelegramMessage) (rm : List (Int × Int)) :
    should_continue_thread ⟨tw, mx, a⟩ cur m rm =
      should_continue_thread ⟨tw, mx, b⟩ cur m rm ∧
    detect_threads ⟨tw, mx, a⟩ messages = detect_threads ⟨tw, mx, b⟩ messages :=
  ⟨rfl, detectLoop_min_irrel tw mx a b (buildReplyMap messages) messages [] []⟩

/-! ## The thread-size bound -/

theorem should_continue_true_lt (d : ThreadDetector) (cur : List TelegramMessage)
    (m : TelegramMessage) (rm : List (Int × Int))
    (h : should_continue_thread d cur m rm = true) : cur.length < d.max_messages := by
  by_cases hle : d.max_messages ≤ cur.length
  · rw [should_continue_thread, if_pos hle] at h
    exact absurd h (by simp)
  · omega

theorem detectLoop_bound (d : ThreadDetector) (rm : List (Int × Int))
    (hmax : 1 ≤ d.max_messages) :
    ∀ (msgs cur : List TelegramMessage) (threads : List MessageThread),
    cur.length ≤ d.max_messages → (∀ t ∈ threads, t.message_count ≤ d.max_messages) →
    ∀ t ∈ detectLoop d rm msgs cur threads, t.message_count ≤ d.max_messages := by
  intro msgs
  induction msgs with
  | nil =>
    intro cur threads hcur hth t ht
    cases hc : cur.isEmpty with
    | true =>
      rw [detectLoop, if_pos hc] at ht
      exact hth t ht
    | false =>
      rw [detectLoop, if_neg (by simp [hc])] at ht
      rcases List.mem_append.mp ht with h | h
      · exact hth t h
      · rcases List.mem_singleton.mp h with rfl
        simpa [create_thread_count] using hcur
  | cons m rest ih =>
    intro cur threads hcur hth t ht
    cases hsc : should_continue_thread d cur m rm with
    | true =>
      rw [detectLoop, if_pos hsc] at ht
      have hlt := should_continue_true_lt d cur m rm hsc
      refine ih (cur ++ [m]) threads ?_ hth t ht
      simpa using hlt
    | false =>
      rw [detectLoop, if_neg (by simp [hsc])] at ht
      refine ih [m] _ (by simpa using hmax) ?_ t ht
      intro u hu
      cases hc : cur.isEmpty with
      | true =>
        rw [if_pos hc] at hu
        exact hth u hu
      | false =>
        rw [if_neg (by simp [hc])] at hu
        rcases List.mem_append.mp hu with h | h
        · exact hth u h
        · rcases List.mem_singleton.mp h with rfl
          simpa [create_thread_count] using hcur

/-- C4 (amended: the configured maximum must be at least 1; a configured
maximum of 0 is expressible and is violated, see the counterexample):
every thread returned by detect_threads has at most max_messages messages,
and Scenario E — 60 same-sender messages 1 minute apart with the maximum set
to 50 — produces a first thread of exactly 50 messages followed by a second
thread with the remaining 10. -/
theorem detect_threads_max_bound :
    (∀ (d : ThreadDetector) (messages : List TelegramMessage), 1 ≤ d.max_messages →
      ∀ t ∈ detect_threads d messages, t.message_count ≤ d.max_messages) ∧
    (detect_threads detectorScenarioE scenarioE).map (fun t => t.message_count) = [50, 10] := by
  constructor
  · intro d messages h t ht
    exact detectLoop_bound d (buildReplyMap messages) h messages [] []
      (by simp) (by simp) t ht
  · decide

/-- C4 counterexample: with the thread_max_messages setting 0 (accepted by
config.py, which validates only the time window, and propagated untouched by
__init__), detect_threads still emits a 1-message thread, violating the
claimed bound for that configured maximum. -/
theorem detect_threads_max_bound_cex :
    ¬ (∀ t ∈ detect_threads detectorMaxZero [aliceMsg],
        t.message_count ≤ detectorMaxZero.max_messages) := by decide

/-- Witness: the amended bound applied to the default detector on a concrete
one-message input. -/
theorem detect_threads_max_bound_witness :
    ((detect_threads dDefault [aliceMsg]).headD junkThread).message_count ≤
      dDefault.max_messages :=
  detect_threads_max_bound.1 dDefault [aliceMsg] (by decide)
    ((detect_threads dDefault [aliceMsg]).headD junkThread) (by decide)

/-! ## The per-thread invariant -/

theorem create_thread_inv (msgs : List TelegramMessage) (hne : msgs ≠ [])
    (hsort : List.Chain' (fun a b => to_timestamp a ≤ to_timestamp b) msgs) :
    ThreadInv (create_thread msgs) := by
  refine ⟨by simpa [create_thread_messages] using hne,
    by simpa [create_thread_messages] using hsort, rfl, rfl, rfl, ?_, ?_⟩
  · exact List.nodup_dedup _
  · intro s
    simp [create_thread]

theorem detectLoop_inv (d : ThreadDetector) (rm : List (Int × Int)) :
    ∀ (msgs cur : List TelegramMessage) (threads : List MessageThread),
    List.Chain' (fun a b => to_timestamp a ≤ to_timestamp b) (cur ++ msgs) →
    (∀ t ∈ threads, ThreadInv t) →
    ∀ t ∈ detectLoop d rm msgs cur threads, ThreadInv t := by
  intro msgs
  induction msgs with
  | nil =>
    intro cur threads hch hth t ht
    cases hc : cur.isEmpty with
    | true =>
      rw [detectLoop, if_pos hc] at ht
      exact hth t ht
    | false =>
      rw [detectLoop, if_neg (by simp [hc])] at ht
      rcases List.mem_append.mp ht with h | h
      · exact hth t h
      · rcases List.mem_singleton.mp h with rfl
        exact create_thread_inv cur (by simpa [List.isEmpty_iff] using hc)
          (by simpa using hch)
  | cons m rest ih =>
    intro cur threads hch hth t ht
    cases hsc : should_continue_thread d cur m rm with
    | true =>
      rw [detectLoop, if_pos hsc] at ht
      refine ih (cur ++ [m]) threads ?_ hth t ht
      simpa [List.append_assoc] using hch
    | false =>
      rw [detectLoop, if_neg (by simp [hsc])] at ht
      refine ih [m] _ ?_ ?_ t ht
      · simpa using hch.right_of_append
      · intro u hu
        cases hc : cur.isEmpty with
        | true =>
          rw [if_pos hc] at hu
          exact hth u hu
        | false =>
          rw [if_neg (by simp [hc])] at hu
          rcases List.mem_append.mp hu with h | h
          · exact hth u h
          · rcases List.mem_singleton.mp h with rfl
            exact create_thread_inv cur (by simpa [List.isEmpty_iff] using hc)
              hch.left_of_append

/-- C5: every thread produced by detect_threads from a chronologically sorted
input satisfies the Thread invariant — non-empty messages, non-decreasing
timestamps, start_time and end_time equal to the first and last message
timestamps, message_count equal to the list length, and participants being
exactly (and without duplicates) the set of sender names of its messages. -/
theorem detect_threads_thread_invariant (d : ThreadDetector)
    (messages : List TelegramMessage)
    (hsorted : List.Chain' (fun a b => to_timestamp a ≤ to_timestamp b) messages) :
    ∀ t ∈ detect_threads d messages, ThreadInv t :=
  detectLoop_inv d (buildReplyMap messages) messages [] [] (by simpa using hsorted)
    (by simp)

/-- Witness: the invariant holds of the thread produced from a concrete
sorted two-message input. -/
theorem detect_threads_thread_invariant_witness :
    ThreadInv ((detect_threads dDefault witnessSorted).headD junkThread) :=
  detect_threads_thread_invariant dDefault witnessSorted
    (by simp only [witnessSorted]; exact List.chain'_pair.mpr (by decide))
    ((detect_threads dDefault witnessSorted).headD junkThread) (by decide)

/-! ## Boundary semantics of the time comparisons -/

theorem getLast?_of_ne_nil (cur : List TelegramMessage) (hne : cur ≠ []) :
    cur.getLast? = some (cur.getLastD defaultMessage) := by
  cases h : cur.getLast? with
  | none => exact absurd (List.getLast?_eq_none_iff.mp h) hne
  | some a => rw [List.getLastD_eq_getLast?, h]; rfl

/-- C6: time comparisons of should_continue_thread are inclusive at the
boundary, with the quick-reply threshold fixed at 120 seconds. First: a gap
strictly greater than the configured window forces rejection. Second: a gap
exactly equal to the window does not force rejection (a configuration and
inputs exist where it accepts). Third: whatever the configured window, a
candidate within it from a new, non-replying, non-service sender is accepted
whenever the gap is at most the fixed 2 minutes. -/
theorem should_continue_time_boundary :
    (∀ (d : ThreadDetector) (cur : List TelegramMessage) (m : TelegramMessage)
        (rm : List (Int × Int)), cur ≠ [] →
      d.time_window < to_timestamp m - to_timestamp (cur.getLastD defaultMessage) →
      should_continue_thread d cur m rm = false) ∧
    (∃ (d : ThreadDetector) (cur : List TelegramMessage) (m : TelegramMessage)
        (rm : List (Int × Int)), cur ≠ [] ∧
      to_timestamp m - to_timestamp (cur.getLastD defaultMessage) = d.time_window ∧
      should_continue_thread d cur m rm = true) ∧
    (∀ (d : ThreadDetector) (cur : List TelegramMessage) (m : TelegramMessage)
        (rm : List (Int × Int)), cur ≠ [] → cur.length < d.max_messages →
      to_timestamp m - to_timestamp (cur.getLastD defaultMessage) ≤ d.time_window →
      m.reply_to_message_id = none →
      rmLookup rm m.id = none →
      m.type ≠ MessageType.service →
      (∀ x ∈ cur, get_sender_name x ≠ get_sender_name m) →
      to_timestamp m - to_timestamp (cur.getLastD defaultMessage) ≤ 120 →
      should_continue_thread d cur m rm = true) := by
  refine ⟨?_, ?_, ?_⟩
  · intro d cur m rm hne hgt
    rw [should_continue_thread]
    split
    · rfl
    · rw [getLast?_of_ne_nil cur hne]
      simp only
      rw [if_pos hgt]
  · exact ⟨dDefault, [aliceMsg], aliceAt300, [], by decide, by decide, by decide⟩
  · intro d cur m rm hne hlen hgap hr hl hsv hp h120
    have hmax : ¬ d.max_messages ≤ cur.length := by omega
    have hbeq : (m.type == MessageType.service) = false := beq_eq_false_iff_ne.mpr hsv
    have hany : cur.any (fun msg => get_sender_name msg == get_sender_name m) = false :=
      List.any_eq_false.mpr (fun x hx => by simpa using hp x hx)
    rw [should_continue_thread, if_neg hmax, getLast?_of_ne_nil cur hne]
    simp only [hr, hl, hbeq]
    rw [if_neg (not_lt.mpr hgap)]
    simp only [Bool.false_eq_true, if_false, hany]
    rw [if_pos h120]

/-- Witness: the rejection half applied at a 301-second gap against the
default 5-minute window, and the quick-reply half applied at a 100-second gap
from a new sender. -/
theorem should_continue_time_boundary_witness :
    should_continue_thread dDefault [aliceMsg] bobAt301 [] = false ∧
    should_continue_thread dDefault [aliceMsg] bobAt100 [] = true :=
  ⟨should_continue_time_boundary.1 dDefault [aliceMsg] bobAt301 [] (by decide) (by decide),
   should_continue_time_boundary.2.2 dDefault [aliceMsg] bobAt100 [] (by decide) (by decide)
     (by decide) (by decide) (by decide) (by decide) (by decide) (by decide)⟩

/-! ## Reverse-reply lookup and the incremental filter -/

/-- C1: evaluation of the code at the failing input. The thread's single
message replies to the candidate's id and the candidate is well inside the
time window (180 of 300 seconds), yet should_continue_thread — with the reply
map built over the whole sequence exactly as detect_threads builds it —
returns false: the map is keyed by the REPLYING message's id, so the lines
meant to look up "some thread message replies to the candidate" only repeat
the forward check. -/
theorem reverse_reply_lookup_rejects :
    c1ReplyMsg.reply_to_message_id = some c1Candidate.id ∧
    to_timestamp c1Candidate - to_timestamp ([c1ReplyMsg].getLastD defaultMessage) ≤
      dDefault.time_window ∧
    buildReplyMap c1Messages = [(1, 2)] ∧
    should_continue_thread dDefault [c1ReplyMsg] c1Candidate (buildReplyMap c1Messages) =
      false := by decide

/-- C2: evaluation of the code at the failing input. `c2Thread` contains a
message strictly newer than the cutoff, so the claimed behavior (also stated
as `filterSinceSpec`) keeps it; the code instead evaluates
`msg.date > since` — a `str` against a `datetime` — and raises TypeError. -/
theorem filter_new_threads_type_error :
    filter_new_threads [c2Thread] c2Since =
      Except.error (PyErr.typeErr "unsupported operand: str > datetime") ∧
    filterSinceSpec [c2Thread] c2Since.epoch = [c2Thread] := by decide

/-! ## The document builder -/

/-- C7 counterexample: `from_thread` applied (on its default content path) to
a thread with zero messages returns a Document — the concrete
`emptyThreadDocument` — rather than signalling any error. -/
theorem from_thread_empty_returns_document :
    from_thread emptyThread false = Except.ok emptyThreadDocument := rfl

/-- C7 amended: there is no empty-thread guard. On the default content path,
`from_thread` of any zero-message thread succeeds, returning a document whose
content is the empty transcript and whose word count is 0. -/
theorem from_thread_empty_no_guard (t : MessageThread) (h : t.messages = []) :
    ∃ doc, from_thread t false = Except.ok doc ∧
      doc.content = "" ∧ doc.word_count = 0 :=
  ⟨_, rfl,
    by show get_combined_content t = ""
       rw [get_combined_content, h]
       rfl,
    by show pyWordCount (threadAllText t) = 0
       rw [threadAllText, threadTexts, h]
       rfl⟩

/-- Witness: the amended no-guard statement applied to the concrete empty
thread. -/
theorem from_thread_empty_no_guard_witness :
    ∃ doc, from_thread emptyThread false = Except.ok doc ∧
      doc.content = "" ∧ doc.word_count = 0 :=
  from_thread_empty_no_guard emptyThread (by decide)

/-- C8 counterexample: for the one-message thread whose text is "hi", the
stored word count is 1 (from the joined message texts) while the chosen
content string "[1970-01-01 00:00:00] a: hi" splits into 4 whitespace tokens,
so the stored word count is NOT the token count of the content. -/
theorem from_thread_word_count_cex :
    from_thread hiThread false = Except.ok hiDocument ∧
    hiDocument.word_count = 1 ∧
    (pySplitWhite hiDocument.content).length = 4 ∧
    hiDocument.word_count ≠ (pySplitWhite hiDocument.content).length :=
  ⟨rfl, by decide, by decide, by decide⟩

/-- C8 amended: whenever `from_thread` returns a document — on either value
of the context-injection flag — its word_count is the whitespace token count
of the space-joined texts of the thread's regular messages with non-empty
text (`threadAllText`), not of the chosen content string. -/
theorem from_thread_word_count (t : MessageThread) (flag : Bool)
    (doc : WeaviateDocument) (h : from_thread t flag = Except.ok doc) :
    doc.word_count = pyWordCount (threadAllText t) := by
  cases flag with
  | false =>
    rw [from_thread] at h
    simp only [Bool.false_eq_true, if_false] at h
    cases h
    rfl
  | true =>
    rw [from_thread] at h
    simp only [if_true] at h
    cases hcc : get_contextual_content t true true with
    | error e => rw [hcc] at h; cases h
    | ok c =>
      rw [hcc] at h
      cases h
      rfl

/-- Witness: the amended word-count statement applied to the concrete
one-message thread. -/
theorem from_thread_word_count_witness :
    hiDocument.word_count = pyWordCount (threadAllText hiThread) :=
  from_thread_word_count hiThread false hiDocument rfl

/-! ## The bounded retry of batched ingestion -/

theorem ingest_batch_failed_cases (env : IngestEnv) (f docs : List WeaviateDocument) :
    (ingest_batch env f docs).2 = f ∨ (ingest_batch env f docs).2 = f ++ docs := by
  rw [ingest_batch]
  by_cases h1 : (docs.map to_weaviate_object).isEmpty
  · left; simp [h1]
  · by_cases h2 : env.batchInsertFails docs
    · right; simp [h1, h2]
    · left; simp [h1, h2]

theorem ingestStep_sublist (env : IngestEnv) (acc : (Nat × Nat × Nat) × List WeaviateDocument)
    (batch pre : List WeaviateDocument) (h : acc.2.Sublist pre) :
    (ingestStep env acc batch).2.Sublist (pre ++ batch) := by
  have hproj : (ingestStep env acc batch).2 = (ingest_batch env acc.2 batch).2 := rfl
  rw [hproj]
  rcases ingest_batch_failed_cases env acc.2 batch with he | he <;> rw [he]
  · exact h.trans (List.sublist_append_left pre batch)
  · exact List.Sublist.append h (List.Sublist.refl batch)

theorem ingestFold_sublist (env : IngestEnv) :
    ∀ (cs : List (List WeaviateDocument)) (acc : (Nat × Nat × Nat) × List WeaviateDocument)
      (pre : List WeaviateDocument), acc.2.Sublist pre →
    ((cs.foldl (ingestStep env) acc).2).Sublist (pre ++ cs.flatten) := by
  intro cs
  induction cs with
  | nil => intro acc pre h; simpa using h
  | cons c cs ih =>
    intro acc pre h
    have step := ingestStep_sublist env acc c pre h
    have := ih (ingestStep env acc c) (pre ++ c) step
    simpa [List.append_assoc] using this

theorem chunksGo_flatten (bs : Nat) (hbs : 1 ≤ bs) :
    ∀ (fuel : Nat) (l : List WeaviateDocument), l.length ≤ fuel →
    (chunksGo bs fuel l).flatten = l := by
  intro fuel
  induction fuel with
  | zero =>
    intro l hl
    have : l = [] := List.length_eq_zero.mp (Nat.le_zero.mp hl)
    simp [this, chunksGo]
  | succ n ih =>
    intro l hl
    cases l with
    | nil => simp [chunksGo]
    | cons a as =>
      simp only [chunksGo, List.flatten_cons]
      rw [ih ((a :: as).drop bs)
        (by simp only [List.length_drop, List.length_cons]
            simp only [List.length_cons] at hl
            omega)]
      exact List.take_append_drop bs (a :: as)

theorem collectedFailed_sublist (env : IngestEnv) (bs : Nat)
    (docs0 : List WeaviateDocument) (skip : Bool) (hbs : 1 ≤ bs) :
    (collectedFailed env bs docs0 skip).Sublist (dedupeDocs env skip docs0) := by
  have h := ingestFold_sublist env (chunks bs (dedupeDocs env skip docs0))
    ((0, 0, 0), []) [] (by simp)
  have hj : (chunks bs (dedupeDocs env skip docs0)).flatten = dedupeDocs env skip docs0 :=
    chunksGo_flatten bs hbs _ _ (le_refl _)
  rw [List.nil_append, hj] at h
  simpa [collectedFailed, ingest_main_pass] using h

theorem ingest_documents_empty (env : IngestEnv) (bs : Nat)
    (docs0 : List WeaviateDocument) (skip : Bool) (h : dedupeDocs env skip docs0 = []) :
    (ingest_documents env bs docs0 skip).retry_attempted = false ∧
    (ingest_documents env bs docs0 skip).retried_docs = [] := by
  rw [ingest_documents]
  simp [h]

theorem ingest_documents_retry (env : IngestEnv) (bs : Nat)
    (docs0 : List WeaviateDocument) (skip : Bool)
    (hne : dedupeDocs env skip docs0 ≠ [])
    (hc : (ingest_main_pass env bs (dedupeDocs env skip docs0)).2 ≠ [])
    (hlt : (ingest_main_pass env bs (dedupeDocs env skip docs0)).2.length < 50) :
    (ingest_documents env bs docs0 skip).retry_attempted = true ∧
    (ingest_documents env bs docs0 skip).retried_docs =
      (ingest_main_pass env bs (dedupeDocs env skip docs0)).2 ∧
    (ingest_documents env bs docs0 skip).stats.failed =
      (ingest_batch env (ingest_main_pass env bs (dedupeDocs env skip docs0)).2
        (ingest_main_pass env bs (dedupeDocs env skip docs0)).2).1.2 := by
  simp only [ingest_documents]
  rw [if_neg (by simp [List.isEmpty_iff, hne]),
    if_pos ⟨by simp [List.isEmpty_iff, hc], hlt⟩]
  exact ⟨rfl, rfl, rfl⟩

theorem ingest_documents_no_retry (env : IngestEnv) (bs : Nat)
    (docs0 : List WeaviateDocument) (skip : Bool)
    (hne : dedupeDocs env skip docs0 ≠ [])
    (hc : ¬((ingest_main_pass env bs (dedupeDocs env skip docs0)).2 ≠ [] ∧
        (ingest_main_pass env bs (dedupeDocs env skip docs0)).2.length < 50)) :
    (ingest_documents env bs docs0 skip).retry_attempted = false ∧
    (ingest_documents env bs docs0 skip).retried_docs = [] := by
  simp only [ingest_documents]
  rw [if_neg (by simp [List.isEmpty_iff, hne]),
    if_neg (fun hx => hc ⟨by simpa [List.isEmpty_iff] using hx.1, hx.2⟩)]
  exact ⟨rfl, rfl⟩

/-- C9 (amended: the retry runs exactly when the collected failed-document
list is NON-EMPTY and shorter than 50 — the code's `if self.failed_threads
and len(...) < 50`; the original "exactly when strictly below 50" fails at
zero failures, see the counterexample): for any environment, batch size ≥ 1,
input documents and skip flag, the retry is attempted iff the collected
failed list is non-empty with fewer than 50 entries; when attempted it is a
single ingest_batch pass over exactly that collected list, whose failure
count is what the final statistics report; when not attempted nothing is
retried; and the collected list is a sublist of the deduplicated input (so it
retries only collected documents, each collected occurrence once). -/
theorem ingest_retry_policy (env : IngestEnv) (bs : Nat) (docs0 : List WeaviateDocument)
    (skip : Bool) (hbs : 1 ≤ bs) :
    ((ingest_documents env bs docs0 skip).retry_attempted = true ↔
      collectedFailed env bs docs0 skip ≠ [] ∧
        (collectedFailed env bs docs0 skip).length < 50) ∧
    ((ingest_documents env bs docs0 skip).retry_attempted = true →
      (ingest_documents env bs docs0 skip).retried_docs = collectedFailed env bs docs0 skip ∧
      (ingest_documents env bs docs0 skip).stats.failed =
        (ingest_batch env (collectedFailed env bs docs0 skip)
          (collectedFailed env bs docs0 skip)).1.2) ∧
    ((ingest_documents env bs docs0 skip).retry_attempted = false →
      (ingest_documents env bs docs0 skip).retried_docs = []) ∧
    (collectedFailed env bs docs0 skip).Sublist (dedupeDocs env skip docs0) := by
  by_cases hd : dedupeDocs env skip docs0 = []
  · have hcoll : collectedFailed env bs docs0 skip = [] := by
      rw [collectedFailed, hd]; rfl
    obtain ⟨h1, h2⟩ := ingest_documents_empty env bs docs0 skip hd
    refine ⟨?_, ?_, fun _ => h2, ?_⟩
    · rw [h1, hcoll]; simp
    · intro hcontra; rw [h1] at hcontra; cases hcontra
    · rw [hcoll]; exact List.nil_sublist _
  · by_cases hc2 : collectedFailed env bs docs0 skip ≠ [] ∧
        (collectedFailed env bs docs0 skip).length < 50
    · obtain ⟨hq, hw, he⟩ := ingest_documents_retry env bs docs0 skip hd
        (by simpa [collectedFailed] using hc2.1) (by simpa [collectedFailed] using hc2.2)
      refine ⟨?_,
        fun _ => ⟨by simpa [collectedFailed] using hw, by simpa [collectedFailed] using he⟩,
        ?_, collectedFailed_sublist env bs docs0 skip hbs⟩
      · rw [hq]; exact iff_of_true rfl hc2
      · intro hcontra; rw [hq] at hcontra; cases hcontra
    · obtain ⟨hq, hw⟩ := ingest_documents_no_retry env bs docs0 skip hd
        (by simpa [collectedFailed] using hc2)
      refine ⟨?_, ?_, fun _ => hw, collectedFailed_sublist env bs docs0 skip hbs⟩
      · rw [hq]; exact iff_of_false (by simp) hc2
      · intro hcontra; rw [hq] at hcontra; cases hcontra

/-- C9 counterexample: in a run where every batch succeeds, the collected
failed-document count is 0, which is strictly below the threshold of 50, yet
no retry is attempted — refuting "a retry is attempted exactly when the
collected failed-document count is strictly below 50". -/
theorem ingest_retry_policy_cex :
    (collectedFailed envAllOk 1 [junkDocument] false).length < 50 ∧
    (ingest_documents envAllOk 1 [junkDocument] false).retry_attempted = false := by
  exact ⟨by decide, by decide⟩

/-- Witness: the amended retry policy applied to a concrete all-success run
with batch size 1. -/
theorem ingest_retry_policy_witness :
    ((ingest_documents envAllOk 1 [junkDocument] false).retry_attempted = true ↔
      collectedFailed envAllOk 1 [junkDocument] false ≠ [] ∧
        (collectedFailed envAllOk 1 [junkDocument] false).length < 50) ∧
    ((ingest_documents envAllOk 1 [junkDocument] false).retry_attempted = true →
      (ingest_documents envAllOk 1 [junkDocument] false).retried_docs =
        collectedFailed envAllOk 1 [junkDocument] false ∧
      (ingest_documents envAllOk 1 [junkDocument] false).stats.failed =
        (ingest_batch envAllOk (collectedFailed envAllOk 1 [junkDocument] false)
          (collectedFailed envAllOk 1 [junkDocument] false)).1.2) ∧
    ((ingest_documents envAllOk 1 [junkDocument] false).retry_attempted = false →
      (ingest_documents envAllOk 1 [junkDocument] false).retried_docs = []) ∧
    (collectedFailed envAllOk 1 [junkDocument] false).Sublist
      (dedupeDocs envAllOk false [junkDocument]) :=
  ingest_retry_policy envAllOk 1 [junkDocument] false (by decide)

end TgRag
